import Mathlib

/-!
Shallow embedding of `homeassistant/components/smartthings/tvapi/tizenws.py`
(the Tizen TV websocket client) and proofs about the behaviour of its
message routing, token persistence, retry backoff, app registry, running-app
monitor and command surface.

Python dicts are modelled as ordered association lists with overwrite-on-insert
(`dictInsert` / `dictGet`), Python `None` as `Option.none`, and Python string
truthiness (`if s:`) as `strTruthy`.  Side effects (frames written to a
websocket, invocations of the `_update` callback, log lines for swallowed
exceptions, task creation) are recorded in explicit trace fields of the
client state.  Exceptions are modelled with `Except`; in the source every
raising path raises before mutating `self`, so discarding the state on
`Except.error` is faithful.
-/

set_option synthInstance.maxHeartbeats 400000

namespace TizenWS

/-- Python dict lookup `d.get(k)` on a string-keyed dict modelled as an
ordered association list. -/
def dictGet {α : Type} (d : List (String × α)) (k : String) : Option α :=
  (d.find? (fun p => p.1 == k)).map Prod.snd

/-- Python dict assignment `d[k] = v`: overwrite in place if the key exists,
else append (insertion order preserved, as for Python dicts). -/
def dictInsert {α : Type} (d : List (String × α)) (k : String) (v : α) :
    List (String × α) :=
  if d.any (fun p => p.1 == k) then
    d.map (fun p => if p.1 == k then (k, v) else p)
  else
    d ++ [(k, v)]

/-- Python truthiness of an optional string (`if token:`): `None` and the
empty string are falsy, every other string is truthy. -/
def strTruthy : Option String → Bool
  | none => false
  | some s => s != ""

/-- Python substring test `pat in s` on character lists. -/
def hasSubstring (pat : List Char) : List Char → Bool
  | [] => pat.isEmpty
  | c :: rest => pat.isPrefixOf (c :: rest) || hasSubstring pat rest

/-- The noise filter of `_build_app_list`: `"waipu" in app_info["name"]`. -/
def isNoiseName (name : String) : Bool :=
  hasSubstring "waipu".toList name.toList

/-- UTF-8 encoding of one character (model of Python `str.encode`). -/
def utf8EncodeChar (c : Char) : List Nat :=
  let n := c.toNat
  if n < 128 then [n]
  else if n < 2048 then [192 + n / 64, 128 + n % 64]
  else if n < 65536 then [224 + n / 4096, 128 + n / 64 % 64, 128 + n % 64]
  else [240 + n / 262144, 128 + n / 4096 % 64, 128 + n / 64 % 64, 128 + n % 64]

/-- UTF-8 byte sequence of a string. -/
def utf8Bytes (s : String) : List Nat :=
  (s.toList.map utf8EncodeChar).flatten

/-- The base64 alphabet. -/
def base64Chars : List Char :=
  "ABCDEFGHIJKLMNOPQRSTUVWXYZabcdefghijklmnopqrstuvwxyz0123456789+/".toList

/-- Character for a 6-bit group. -/
def b64char (n : Nat) : Char := base64Chars.getD n 'A'

/-- Standard base64 encoding of a byte list, with `=` padding (model of
Python `base64.b64encode`). -/
def b64encodeBytes : List Nat → List Char
  | [] => []
  | [a] => [b64char (a / 4), b64char (a % 4 * 16), '=', '=']
  | [a, b] => [b64char (a / 4), b64char (a % 4 * 16 + b / 16),
               b64char (b % 16 * 4), '=']
  | a :: b :: c :: rest =>
      b64char (a / 4) :: b64char (a % 4 * 16 + b / 16) ::
      b64char (b % 16 * 4 + c / 64) :: b64char (c % 64) :: b64encodeBytes rest

/-- Source `serialize_string`: UTF-8 encode then base64, returned as text. -/
def serialize_string (s : String) : String :=
  String.mk (b64encodeBytes (utf8Bytes s))

/-- Structured model of the `yarl` URL value built by
`format_websocket_url`. -/
structure WSUrl where
  scheme : String
  host : String
  port : Nat
  path : String
  query : List (String × String)
deriving DecidableEq, Repr

/-- Source `format_websocket_url`: a `wss` URL on port 8002 with the
base64-encoded name as query parameter, and the token appended as a second
query parameter when it is truthy (`if token:`). -/
def format_websocket_url (host path name : String) (token : Option String) :
    WSUrl :=
  let url : WSUrl :=
    { scheme := "wss", host := host, port := 8002, path := path,
      query := [("name", serialize_string name)] }
  if strTruthy token then
    { url with query := url.query ++ [("token", token.getD "")] }
  else
    url

/-- Source `retry_delay`: the backoff slept before a retry after
`num_errors` consecutive failures, `min(2 ** (num_errors - 1) * 5, 300)`. -/
def retry_delay (num_errors : Nat) : Nat :=
  min (2 ^ (num_errors - 1) * 5) 300

/-- Source constant `ATTR_TOKEN`. -/
def ATTR_TOKEN : String := "token"

/-- Source constant `WS_ENDPOINT_REMOTE_CONTROL`. -/
def WS_ENDPOINT_REMOTE_CONTROL : String := "/api/v2/channels/samsung.remote.control"

/-- Source constant `WS_ENDPOINT_APP_CONTROL`. -/
def WS_ENDPOINT_APP_CONTROL : String := "/api/v2"

/-- The two logical channels (`WS_REMOTE` / `WS_CONTROL`). -/
inductive Channel where
  | remote
  | control
deriving DecidableEq, Repr

/-- One entry of an installed-apps response:
`{"appId": ..., "name": ..., "app_type": ...}`. -/
structure AppInfo where
  appId : String
  name : String
  app_type : Nat
deriving DecidableEq, Repr

/-- The `App` namedtuple `(app_id, app_name, app_type)`. -/
structure App where
  app_id : String
  app_name : String
  app_type : Nat
deriving DecidableEq, Repr

/-- The `result` field of a control-channel frame: either a JSON boolean or
a dict carrying `running`, `visible` and `id`.  A missing `running` or
`visible` key reads back as falsy, which the `Bool` fields capture. -/
inductive ResultVal where
  | boolV (b : Bool)
  | dictV (running : Bool) (visible : Bool) (id : Option String)
deriving DecidableEq, Repr

/-- The JSON fields of an inbound text frame that the handlers inspect:
`payload["event"]`, `payload["data"]["token"]`, `payload["data"]["data"]`
(the installed-apps list), `payload["result"]`, `payload["id"]`. -/
structure Payload where
  event : Option String
  dataToken : Option String
  dataApps : Option (List AppInfo)
  result : Option ResultVal
  id : Option String
deriving DecidableEq, Repr

/-- A text frame with every field absent. -/
def emptyPayload : Payload :=
  { event := none, dataToken := none, dataApps := none, result := none,
    id := none }

/-- Outbound JSON frames written with `send_json`. -/
inductive OutFrame where
  | channelEmit (event : String) (dest : String)
      (data : Option (String × String × String))
  | applicationStart (id : String) (params_id : String)
  | appStatusQuery (method : String) (id : String)
  | remoteControl (cmd : String) (dataOfCmd : String) (option : String)
      (typeOfRemote : String)
deriving DecidableEq, Repr

/-- Exceptions distinguished by the connection loop: the source class
`AuthorizationError`, and every other `Exception`. -/
inductive ChannelError where
  | authorization
  | generic
deriving DecidableEq, Repr

/-- State of one `TizenWebsocket` instance, together with explicit traces of
its side effects: frames sent on each socket, number of `_update()` callback
invocations, and which background tasks were created. -/
structure ClientState where
  store : List (String × String)
  current_app : Option App
  installed_apps : List (String × App)
  found_running_app : Bool
  connected : Bool
  callbackCount : Nat
  sentRemote : List OutFrame
  sentControl : List OutFrame
  controlTaskStarted : Bool
  monitorTaskStarted : Bool
deriving DecidableEq, Repr

/-- State of a freshly constructed client (empty token store, no current
app, empty registry). -/
def initialState : ClientState :=
  { store := [], current_app := none, installed_apps := [],
    found_running_app := false, connected := false, callbackCount := 0,
    sentRemote := [], sentControl := [], controlTaskStarted := false,
    monitorTaskStarted := false }

/-- Source `_update_current_app`: resolve the new current app through the
registry (`installed_apps.get(app_id) if app_id else None`) and invoke the
`_update` callback only when the value changed. -/
def _update_current_app (st : ClientState) (app_id : Option String) :
    ClientState :=
  let new_current_app : Option App :=
    if strTruthy app_id then dictGet st.installed_apps (app_id.getD "")
    else none
  if new_current_app ≠ st.current_app then
    { st with current_app := new_current_app,
              callbackCount := st.callbackCount + 1 }
  else
    st

/-- Loop body of `_build_app_list`: skip an entry whose name contains
`"waipu"`, otherwise store the `App` tuple under its app id. -/
def buildStep (d : List (String × App)) (app_info : AppInfo) :
    List (String × App) :=
  if isNoiseName app_info.name then d
  else dictInsert d app_info.appId
    { app_id := app_info.appId, app_name := app_info.name,
      app_type := app_info.app_type }

/-- Source `_build_app_list`: rebuild `installed_apps` from scratch from the
response list, skipping every entry whose name contains `"waipu"`, then
invoke the `_update` callback unconditionally. -/
def _build_app_list (st : ClientState) (list_app : List AppInfo) :
    ClientState :=
  { st with installed_apps := list_app.foldl buildStep [],
            callbackCount := st.callbackCount + 1 }

/-- Source `request_installed_apps`: emit the `ed.installedApp.get` event on
the remote socket. -/
def request_installed_apps (st : ClientState) : ClientState :=
  { st with sentRemote :=
      st.sentRemote ++ [OutFrame.channelEmit "ed.installedApp.get" "host" none] }

/-- Source `_on_connect_remote`: persist the token from
`msg["data"]["token"]` when truthy, request the installed apps, and create
the control-channel task. -/
def _on_connect_remote (st : ClientState) (msg : Payload) : ClientState :=
  let st :=
    if strTruthy msg.dataToken then
      { st with store := dictInsert st.store ATTR_TOKEN (msg.dataToken.getD "") }
    else st
  let st := request_installed_apps st
  { st with controlTaskStarted := true }

/-- Source `_on_connect_control`: start the app-monitor task and mark the
client connected. -/
def _on_connect_control (st : ClientState) (_msg : Payload) : ClientState :=
  { st with monitorTaskStarted := true, connected := true }

/-- Source `_on_message_remote`: an `ed.installedApp.get` event rebuilds the
registry (iterating a missing `data.data` list raises, which the caller's
guard will log); `ed.edenTV.update` and unknown events do nothing. -/
def _on_message_remote (st : ClientState) (msg : Payload) :
    Except ChannelError ClientState :=
  if msg.event = some "ed.installedApp.get" then
    match msg.dataApps with
    | some apps => .ok (_build_app_list st apps)
    | none => .error .generic
  else
    .ok st

/-- Python truthiness of `msg.get("result")`: `False` and a missing result
are falsy; an app-status dict (which carries keys) is truthy. -/
def resultTruthy : Option ResultVal → Bool
  | none => false
  | some (.boolV b) => b
  | some (.dictV _ _ _) => true

/-- Source `_on_message_control`: a truthy boolean `result` marks the frame
id's app as running; a dict `result` does so only when both `running` and
`visible` are truthy; a truthy resolved app id updates the current app. -/
def _on_message_control (st : ClientState) (msg : Payload) : ClientState :=
  let pair : Option String × ClientState :=
    if resultTruthy msg.result then
      match msg.result with
      | some (.boolV _) => (msg.id, { st with found_running_app := true })
      | some (.dictV running visible i) =>
          if running && visible then (i, { st with found_running_app := true })
          else (none, st)
      | none => (none, st)
    else (none, st)
  if strTruthy pair.1 then _update_current_app pair.2 pair.1 else pair.2

/-- An inbound websocket message: a text frame, an error frame (both of the
source's ERROR sub-branches raise: `raise msg.data` when the data is an
exception, and otherwise the lookup of the nonexistent `_on_error_...`
handler raises `AttributeError`), or a frame of another type, ignored. -/
inductive WSMsg where
  | text (p : Payload)
  | errorFrame
  | otherType
deriving DecidableEq, Repr

/-- Source `_handle_message`: route one inbound frame.  An
`ms.channel.unauthorized` event raises `AuthorizationError`;
`ms.channel.connect` dispatches to the per-channel connect handler; other
text frames go to the per-channel message handler. -/
def _handle_message (conn : Channel) (st : ClientState) (msg : WSMsg) :
    Except ChannelError ClientState :=
  match msg with
  | .text p =>
    if p.event = some "ms.channel.unauthorized" then
      .error .authorization
    else if p.event = some "ms.channel.connect" then
      .ok (match conn with
           | .remote => _on_connect_remote st p
           | .control => _on_connect_control st p)
    else
      match conn with
      | .remote => _on_message_remote st p
      | .control => .ok (_on_message_control st p)
  | .errorFrame => .error .generic
  | .otherType => .ok st

/-- The read loop of `_open_connection`: each frame is handed to
`_handle_message` inside a per-message `try/except Exception` that logs and
swallows every exception.  Returns the final state, the number of frames
handed to the handler, and the exceptions logged by the guard. -/
def messageLoop (conn : Channel) (st : ClientState) (frames : List WSMsg) :
    ClientState × Nat × List ChannelError :=
  frames.foldl
    (fun acc msg =>
      match _handle_message conn acc.1 msg with
      | .ok st' => (st', acc.2.1 + 1, acc.2.2)
      | .error e => (acc.1, acc.2.1 + 1, acc.2.2 ++ [e]))
    (st, 0, [])

/-- Outcome of one `_open_connection` attempt whose socket delivered the
given frames. -/
structure ConnOutcome where
  finalState : ClientState
  handledFrames : Nat
  messageErrorsLogged : List ChannelError
  outerCaught : Option ChannelError
  raisedToCaller : Option ChannelError
deriving DecidableEq, Repr

/-- Source `_open_connection` for a connection that is established and whose
socket yields `frames`: run the read loop (whose per-message guard never
lets an exception escape, so the outer `except AuthorizationError` clause is
never reached from message handling), then the `finally` clause clears the
socket attribute and the connected flag.  Every `except` clause only logs,
so nothing is ever raised to the task's creator. -/
def _open_connection (conn : Channel) (st : ClientState)
    (frames : List WSMsg) : ConnOutcome :=
  let r := messageLoop conn st frames
  { finalState := { r.1 with connected := false },
    handledFrames := r.2.1,
    messageErrorsLogged := r.2.2,
    outerCaught := none,
    raisedToCaller := none }

/-- Result of one command-surface call (`send_key` / `run_app`): the frame
actually written and its channel, whether the `except Exception` branch
logged a failure, any exception propagated to the caller, and any sleep
performed afterwards. -/
structure SendResult where
  sent : Option (Channel × OutFrame)
  loggedError : Bool
  raised : Option ChannelError
  sleptFor : Option Nat
deriving DecidableEq, Repr

/-- Source `send_key`: serialize the key press onto the remote socket; any
exception (including the remote channel being absent) is caught, logged and
swallowed; on success sleep for the default delay when `key_press_delay` is
`None`, for `key_press_delay` when positive, and not at all otherwise. -/
def send_key (ws_remote_open : Bool) (default_delay : Nat) (key : String)
    (key_press_delay : Option Nat) (cmd : String) : SendResult :=
  if ws_remote_open then
    { sent := some (Channel.remote,
        OutFrame.remoteControl cmd key "false" "SendRemoteKey"),
      loggedError := false, raised := none,
      sleptFor :=
        match key_press_delay with
        | none => some default_delay
        | some d => if 0 < d then some d else none }
  else
    { sent := none, loggedError := true, raised := none, sleptFor := none }

/-- Action-type resolution of `run_app`: an empty `action_type` is derived
from the registry entry, `"NATIVE_LAUNCH"` when the app is found with
`app_type != 2`, `"DEEP_LINK"` otherwise (including an unknown app id). -/
def resolve_action_type (installed_apps : List (String × App))
    (app_id : String) (action_type : String) : String :=
  if action_type = "" then
    match dictGet installed_apps app_id with
    | some app => if app.app_type ≠ 2 then "NATIVE_LAUNCH" else "DEEP_LINK"
    | none => "DEEP_LINK"
  else action_type

/-- Source `run_app`: resolve the action type, then send
`ms.application.start` on the control socket for `"DEEP_LINK"` and an
`ed.apps.launch` emit on the remote socket otherwise; any exception is
caught, logged and swallowed. -/
def run_app (ws_remote_open ws_control_open : Bool)
    (installed_apps : List (String × App)) (app_id : String)
    (action_type : String) (meta_tag : String) : SendResult :=
  let at1 := resolve_action_type installed_apps app_id action_type
  if at1 = "DEEP_LINK" then
    if ws_control_open then
      { sent := some (Channel.control, OutFrame.applicationStart app_id app_id),
        loggedError := false, raised := none, sleptFor := none }
    else
      { sent := none, loggedError := true, raised := none, sleptFor := none }
  else
    if ws_remote_open then
      { sent := some (Channel.remote,
          OutFrame.channelEmit "ed.apps.launch" "host"
            (some (at1, app_id, meta_tag))),
        loggedError := false, raised := none, sleptFor := none }
    else
      { sent := none, loggedError := true, raised := none, sleptFor := none }

/-- The status queries one monitor sweep writes to the control socket: one
per registry entry, `ms.webapplication.get` for `app_type == 4` and
`ms.application.get` otherwise. -/
def sweepQueries (installed_apps : List (String × App)) : List OutFrame :=
  installed_apps.map
    (fun p =>
      OutFrame.appStatusQuery
        (if p.2.app_type = 4 then "ms.webapplication.get"
         else "ms.application.get")
        p.2.app_id)

/-- Whether a control-channel frame reports its app as running: exactly the
condition under which `_on_message_control` sets `_found_running_app`. -/
def reportsRunning (p : Payload) : Bool :=
  match p.result with
  | some (.boolV b) => b
  | some (.dictV running visible _) => running && visible
  | none => false

/-- End-of-sweep check of `_monitor_running_app`: clear the current app
when it is set but no app reported itself running during the sweep. -/
def sweepEnd (st : ClientState) : ClientState :=
  if st.current_app ≠ none ∧ st.found_running_app = false then
    _update_current_app st none
  else st

/-- One iteration of `_monitor_running_app`: reset `_found_running_app`,
send a status query per registry entry, let the control-channel read loop
process the `responses` that arrive during the sweep, then run the
end-of-sweep check. -/
def monitorSweep (st : ClientState) (responses : List Payload) : ClientState :=
  sweepEnd (responses.foldl _on_message_control
    { st with found_running_app := false,
              sentControl := st.sentControl ++ sweepQueries st.installed_apps })

/-- One remote-channel connect/handshake cycle as far as the token store is
concerned: the device's `ms.channel.connect` frame carries `issued` and is
routed to `_on_connect_remote`. -/
def remoteCycle (st : ClientState) (issued : Option String) : ClientState :=
  _on_connect_remote st
    { emptyPayload with event := some "ms.channel.connect", dataToken := issued }

/-- The URL a connection attempt of `_open_connection` uses: the remote
channel reads the persisted token from the store, the control channel
presents none. -/
def openConnectionUrl (conn : Channel) (st : ClientState)
    (host name : String) : WSUrl :=
  let path := match conn with
    | .remote => WS_ENDPOINT_REMOTE_CONTROL
    | .control => WS_ENDPOINT_APP_CONTROL
  let token := match conn with
    | .remote => dictGet st.store ATTR_TOKEN
    | .control => none
  format_websocket_url host path name token

/-- The most recent truthy token issued across a sequence of cycles. -/
def lastTruthyToken (l : List (Option String)) : Option String :=
  l.foldl (fun acc t => if strTruthy t then t else acc) none

/-- The app identifier an app-status response refers to: the frame `id` for
a boolean `result`, the `result`'s own `id` for a dict `result`. -/
def reportedId (p : Payload) : Option String :=
  match p.result with
  | some (.boolV _) => p.id
  | some (.dictV _ _ i) => i
  | none => none

/-- Fixture: a native app (app_type 1). -/
def appA : App := { app_id := "A", app_name := "AppA", app_type := 1 }

/-- Fixture: a web/deep-link app (app_type 2). -/
def appB : App := { app_id := "B", app_name := "AppB", app_type := 2 }

/-- Fixture: registry holding `appA` and `appB`. -/
def regAB : List (String × App) := [("A", appA), ("B", appB)]

/-- Fixture: installed-apps entry for `appA`. -/
def infoA : AppInfo := { appId := "A", name := "AppA", app_type := 1 }

/-- Fixture: installed-apps entry for `appB`. -/
def infoB : AppInfo := { appId := "B", name := "AppB", app_type := 2 }

/-- Fixture: a client that knows apps A and B and currently shows A. -/
def stWithApp : ClientState :=
  { initialState with installed_apps := regAB, current_app := some appA }

/-- Fixture: an app-status response claiming an app absent from the registry
is running and visible. -/
def ghostPayload : Payload :=
  { emptyPayload with result := some (.dictV true true (some "ghost")) }

/-- Fixture: an app-status response for app A reporting it not running. -/
def notRunningPayload : Payload :=
  { emptyPayload with result := some (.dictV false true (some "A")) }

/-- Fixture: an inbound `ms.channel.unauthorized` text frame. -/
def unauthorizedMsg : WSMsg :=
  .text { emptyPayload with event := some "ms.channel.unauthorized" }

/-- Fixture: an inbound `ms.channel.connect` text frame without a token. -/
def connectMsg : WSMsg :=
  .text { emptyPayload with event := some "ms.channel.connect" }

end TizenWS

namespace TizenWS

theorem dictGet_nil {α : Type} (k : String) : dictGet ([] : List (String × α)) k = none := rfl

theorem dictGet_dictInsert_self {α : Type} (d : List (String × α)) (k : String) (v : α) :
    dictGet (dictInsert d k v) k = some v := by
  unfold dictInsert
  by_cases h : d.any (fun p => p.1 == k)
  · simp only [h, if_true]
    induction d with
    | nil => simp at h
    | cons hd tl ih =>
      by_cases hh : hd.1 == k
      · simp [dictGet, List.find?, hh]
      · have htl : tl.any (fun p => p.1 == k) := by
          simp only [List.any_cons, hh, Bool.false_or] at h
          exact h
        simpa [dictGet, List.find?, hh] using ih htl
  · simp only [h, if_false]
    have hnone : d.find? (fun p => p.1 == k) = none := by
      rw [List.find?_eq_none]
      intro p hp
      intro hpk
      exact h (List.any_of_mem hp hpk)
    simp [dictGet, List.find?_append, hnone, List.find?]

theorem strTruthy_some_getD (t : Option String) (h : strTruthy t = true) :
    t = some (t.getD "") := by
  cases t with
  | none => simp [strTruthy] at h
  | some s => rfl

/-- C5: for every failure count `n ≥ 1`, the backoff delay before the n-th
retry equals `min(2^(n-1) * 5, 300)` (base delay 5, cap 300), is monotone
non-decreasing in `n` and never exceeds the cap. -/
theorem c5_retry_backoff (n : Nat) (h : 1 ≤ n) :
    retry_delay n = min (2 ^ (n - 1) * 5) 300 ∧
    retry_delay n ≤ retry_delay (n + 1) ∧
    retry_delay n ≤ 300 := by
  refine ⟨rfl, ?_, Nat.min_le_right _ _⟩
  unfold retry_delay
  have h1 : 2 ^ (n - 1) * 5 ≤ 2 ^ (n + 1 - 1) * 5 :=
    Nat.mul_le_mul_right 5 (Nat.pow_le_pow_right (by norm_num) (by omega))
  exact min_le_min h1 le_rfl

/-- Witness for C5 at `n = 3`. -/
theorem c5_retry_backoff_witness :
    retry_delay 3 = min (2 ^ (3 - 1) * 5) 300 ∧
    retry_delay 3 ≤ retry_delay 4 ∧
    retry_delay 3 ≤ 300 :=
  c5_retry_backoff 3 (by decide)

/-- C9: the URL builder yields a `wss://` URL on the fixed port 8002 with
the base64-encoded name as query parameter, and a `token` query parameter is
appended (as the second parameter) exactly when the token argument is
present (truthy, mirroring the source's `if token:`). -/
theorem c9_url_builder (host path name : String) (token : Option String) :
    (format_websocket_url host path name token).scheme = "wss" ∧
    (format_websocket_url host path name token).port = 8002 ∧
    (format_websocket_url host path name token).host = host ∧
    (format_websocket_url host path name token).path = path ∧
    ("name", serialize_string name) ∈ (format_websocket_url host path name token).query ∧
    ((∃ t, ("token", t) ∈ (format_websocket_url host path name token).query) ↔
      strTruthy token = true) ∧
    (∀ t, token = some t → t ≠ "" →
      (format_websocket_url host path name token).query =
        [("name", serialize_string name), ("token", t)]) := by
  unfold format_websocket_url
  cases token with
  | none =>
    simp [strTruthy]
  | some s =>
    by_cases hs : s = ""
    · subst hs
      simp [strTruthy]
    · have hts : strTruthy (some s) = true := by simp [strTruthy, hs]
      refine ⟨by simp [hts], by simp [hts], by simp [hts], by simp [hts],
              by simp [hts], ?_, ?_⟩
      · simp only [hts, if_true]
        constructor
        · intro _
          trivial
        · intro _
          exact ⟨s, by simp⟩
      · intro t ht _
        injection ht with ht
        subst ht
        simp [hts]

/-- Witness for C9 with a concrete host, name and token. -/
theorem c9_url_builder_witness :
    ("name", serialize_string "ab") ∈
      (format_websocket_url "192.168.1.2" WS_ENDPOINT_REMOTE_CONTROL "ab" (some "tok")).query ∧
    (format_websocket_url "192.168.1.2" WS_ENDPOINT_REMOTE_CONTROL "ab" (some "tok")).query =
      [("name", serialize_string "ab"), ("token", "tok")] := by
  have h := c9_url_builder "192.168.1.2" WS_ENDPOINT_REMOTE_CONTROL "ab" (some "tok")
  exact ⟨h.2.2.2.2.1, h.2.2.2.2.2.2 "tok" rfl (by decide)⟩

/-- C1 (code behaviour at the failing input): after a remote-channel
session receives `ms.channel.unauthorized`, the read loop does NOT
terminate: the `AuthorizationError` is caught and logged by the per-message
guard, the following frame is still fully processed (it even starts the
control-channel task), and nothing is raised to the caller. -/
theorem c1_unauthorized_logged_and_swallowed :
    (_open_connection Channel.remote initialState
        [unauthorizedMsg, connectMsg]).handledFrames = 2 ∧
    (_open_connection Channel.remote initialState
        [unauthorizedMsg, connectMsg]).messageErrorsLogged =
      [ChannelError.authorization] ∧
    (_open_connection Channel.remote initialState
        [unauthorizedMsg, connectMsg]).raisedToCaller = none ∧
    (_open_connection Channel.remote initialState
        [unauthorizedMsg, connectMsg]).finalState.controlTaskStarted = true := by
  decide

/-- C3 (code behaviour at the failing input): calling `send_key` while the
remote channel is not open sends nothing, logs the failure and raises
nothing to the caller — the failure is swallowed, not surfaced. -/
theorem c3_send_key_failure_swallowed :
    send_key false 0 "KEY_VOLUP" none "Click" =
      { sent := none, loggedError := true, raised := none, sleptFor := none } := by
  decide

/-- Counterexample to C2 as stated: with the app id absent from the
registry, the action type resolves to `"DEEP_LINK"` (an
`ms.application.start` frame on the control channel), not to
`"NATIVE_LAUNCH"`. -/
theorem c2_counterexample :
    resolve_action_type [] "UnknownApp" "" = "DEEP_LINK" ∧
    resolve_action_type [] "UnknownApp" "" ≠ "NATIVE_LAUNCH" ∧
    (run_app true true [] "UnknownApp" "" "").sent =
      some (Channel.control, OutFrame.applicationStart "UnknownApp" "UnknownApp") := by
  decide

/-- C2 (amended): without an explicit action type, a registered app with
`app_type ≠ 2` launches as `"NATIVE_LAUNCH"` via an `ed.apps.launch` emit on
the remote channel; a registered app with `app_type = 2` and likewise an
app id absent from the registry launch as `"DEEP_LINK"` via
`ms.application.start` on the control channel. -/
theorem c2_run_app_dispatch (reg : List (String × App)) (app_id meta_tag : String) :
    (∀ a, dictGet reg app_id = some a → a.app_type ≠ 2 →
      run_app true true reg app_id "" meta_tag =
        { sent := some (Channel.remote,
            OutFrame.channelEmit "ed.apps.launch" "host"
              (some ("NATIVE_LAUNCH", app_id, meta_tag))),
          loggedError := false, raised := none, sleptFor := none }) ∧
    (∀ a, dictGet reg app_id = some a → a.app_type = 2 →
      run_app true true reg app_id "" meta_tag =
        { sent := some (Channel.control, OutFrame.applicationStart app_id app_id),
          loggedError := false, raised := none, sleptFor := none }) ∧
    (dictGet reg app_id = none →
      run_app true true reg app_id "" meta_tag =
        { sent := some (Channel.control, OutFrame.applicationStart app_id app_id),
          loggedError := false, raised := none, sleptFor := none }) := by
  refine ⟨?_, ?_, ?_⟩
  · intro a ha hat
    unfold run_app resolve_action_type
    simp [ha, hat]
  · intro a ha hat
    unfold run_app resolve_action_type
    simp [ha, hat]
  · intro h
    unfold run_app resolve_action_type
    simp [h]

/-- Witness for C2 (amended): a native registered app, a type-2 registered
app and an unknown app id, all at concrete inputs. -/
theorem c2_run_app_dispatch_witness :
    run_app true true regAB "A" "" "" =
      { sent := some (Channel.remote,
          OutFrame.channelEmit "ed.apps.launch" "host"
            (some ("NATIVE_LAUNCH", "A", ""))),
        loggedError := false, raised := none, sleptFor := none } ∧
    run_app true true regAB "B" "" "" =
      { sent := some (Channel.control, OutFrame.applicationStart "B" "B"),
        loggedError := false, raised := none, sleptFor := none } ∧
    run_app true true regAB "Z" "" "" =
      { sent := some (Channel.control, OutFrame.applicationStart "Z" "Z"),
        loggedError := false, raised := none, sleptFor := none } := by
  refine ⟨?_, ?_, ?_⟩
  · exact (c2_run_app_dispatch regAB "A" "").1 appA (by decide) (by decide)
  · exact (c2_run_app_dispatch regAB "B" "").2.1 appB (by decide) (by decide)
  · exact (c2_run_app_dispatch regAB "Z" "").2.2 (by decide)

theorem store_after_cycles (l : List (Option String)) (st : ClientState) :
    dictGet (l.foldl remoteCycle st).store ATTR_TOKEN =
      l.foldl (fun acc t => if strTruthy t then t else acc)
        (dictGet st.store ATTR_TOKEN) := by
  induction l generalizing st with
  | nil => rfl
  | cons t l ih =>
    rw [List.foldl_cons, List.foldl_cons, ih]
    congr 1
    by_cases ht : strTruthy t = true
    · simp only [ht, if_true]
      show dictGet (remoteCycle st t).store ATTR_TOKEN = t
      unfold remoteCycle _on_connect_remote request_installed_apps
      simp only [ht, if_true]
      rw [dictGet_dictInsert_self]
      exact (strTruthy_some_getD t ht).symm
    · show dictGet (remoteCycle st t).store ATTR_TOKEN = _
      unfold remoteCycle _on_connect_remote request_installed_apps
      simp [ht]

theorem foldl_truthy_invariant (l : List (Option String)) (init : Option String)
    (h : init = none ∨ strTruthy init = true) :
    l.foldl (fun acc t => if strTruthy t then t else acc) init = none ∨
    strTruthy (l.foldl (fun acc t => if strTruthy t then t else acc) init) = true := by
  induction l generalizing init with
  | nil => exact h
  | cons t l ih =>
    rw [List.foldl_cons]
    apply ih
    by_cases ht : strTruthy t = true
    · right
      simp [ht]
    · simpa [ht] using h

theorem token_in_remote_url (host name : String) (st : ClientState) (t : String)
    (h : dictGet st.store ATTR_TOKEN = some t) (ht : t ≠ "") :
    ("token", t) ∈ (openConnectionUrl Channel.remote st host name).query := by
  unfold openConnectionUrl format_websocket_url
  have hts : strTruthy (some t) = true := by
    simp [strTruthy, ht]
  simp [h, hts]

/-- C4: across any sequence of remote-channel connect cycles starting from
a fresh client, the persisted token under the fixed key `"token"` equals
the most recent (truthy) token issued in a connect-confirmed frame, and
every remote-channel connection attempt made afterwards reads that
persisted token and carries it in its connection URL. -/
theorem c4_token_persistence (l : List (Option String)) (host name : String) :
    dictGet ((l.foldl remoteCycle initialState).store) ATTR_TOKEN =
      lastTruthyToken l ∧
    (∀ t, lastTruthyToken l = some t →
      ("token", t) ∈
        (openConnectionUrl Channel.remote (l.foldl remoteCycle initialState)
          host name).query) := by
  have hstore := store_after_cycles l initialState
  have hinit : dictGet initialState.store ATTR_TOKEN = none := rfl
  rw [hinit] at hstore
  refine ⟨hstore, ?_⟩
  intro t hlast
  have hlast' : l.foldl (fun acc t => if strTruthy t then t else acc) none =
      some t := hlast
  have hinv := foldl_truthy_invariant l none (Or.inl rfl)
  rw [hlast'] at hinv
  have htne : t ≠ "" := by
    rcases hinv with h | h
    · exact absurd h (by simp)
    · simpa [strTruthy] using h
  exact token_in_remote_url host name _ t (by rw [hstore]; exact hlast') htne

/-- Witness for C4 at a concrete three-cycle history. -/
theorem c4_token_persistence_witness :
    dictGet (([some "t1", none, some "t2"].foldl remoteCycle initialState).store)
      ATTR_TOKEN = some "t2" ∧
    ("token", "t2") ∈
      (openConnectionUrl Channel.remote
        ([some "t1", none, some "t2"].foldl remoteCycle initialState)
        "192.168.1.2" "HA").query := by
  have h := c4_token_persistence [some "t1", none, some "t2"] "192.168.1.2" "HA"
  exact ⟨h.1.trans (by decide), h.2 "t2" (by decide)⟩

theorem on_message_control_not_running (st : ClientState) (p : Payload)
    (h : reportsRunning p = false) : _on_message_control st p = st := by
  unfold _on_message_control
  match hp : p.result with
  | none => simp [hp, resultTruthy, strTruthy]
  | some (.boolV b) =>
      have hb : b = false := by simpa [reportsRunning, hp] using h
      subst hb
      simp [hp, resultTruthy, strTruthy]
  | some (.dictV r v i) =>
      have hrv : (r && v) = false := by simpa [reportsRunning, hp] using h
      simp [hp, resultTruthy, hrv, strTruthy]

theorem foldl_control_noop (l : List Payload) (st : ClientState)
    (h : ∀ r ∈ l, reportsRunning r = false) :
    l.foldl _on_message_control st = st := by
  induction l generalizing st with
  | nil => rfl
  | cons p l ih =>
    rw [List.foldl_cons, on_message_control_not_running st p (h p (by simp))]
    exact ih st (fun r hr => h r (by simp [hr]))

/-- C6: in a monitor sweep during which no application reported itself as
running, a non-none current app is cleared to none at the end of the sweep
and the notification callback fires exactly once. -/
theorem c6_sweep_clears_current_app (st : ClientState) (responses : List Payload)
    (hr : ∀ r ∈ responses, reportsRunning r = false)
    (hc : st.current_app ≠ none) :
    (monitorSweep st responses).current_app = none ∧
    (monitorSweep st responses).callbackCount = st.callbackCount + 1 := by
  unfold monitorSweep
  rw [foldl_control_noop responses _ hr]
  unfold sweepEnd
  rw [if_pos ⟨hc, rfl⟩]
  unfold _update_current_app
  have hne : (if strTruthy none then
      dictGet st.installed_apps ((none : Option String).getD "") else none) ≠
      st.current_app := by
    simpa [strTruthy] using fun he => hc he.symm
  rw [if_pos hne]
  exact ⟨by simp [strTruthy], rfl⟩

/-- Witness for C6: the previously current app A reports not running. -/
theorem c6_sweep_clears_current_app_witness :
    (monitorSweep stWithApp [notRunningPayload]).current_app = none ∧
    (monitorSweep stWithApp [notRunningPayload]).callbackCount =
      stWithApp.callbackCount + 1 :=
  c6_sweep_clears_current_app stWithApp [notRunningPayload] (by decide) (by decide)

theorem find?_map_replace {α : Type} (d : List (String × α)) (k k' : String)
    (v : α) (h : k' ≠ k) :
    List.find? (fun p => p.1 == k')
        (d.map (fun p => if p.1 == k then (k, v) else p)) =
      List.find? (fun p => p.1 == k') d := by
  induction d with
  | nil => rfl
  | cons hd tl ih =>
    by_cases hh : (hd.1 == k) = true
    · have hd1 : hd.1 = k := by simpa using hh
      rw [List.map_cons, if_pos hh, List.find?_cons_of_neg,
          List.find?_cons_of_neg]
      · exact ih
      · show ¬((hd.1 == k') = true)
        simp only [beq_iff_eq, hd1]
        exact fun he => h he.symm
      · show ¬(((k, v).1 == k') = true)
        simp only [beq_iff_eq]
        exact fun he => h he.symm
    · rw [List.map_cons, if_neg hh]
      by_cases hf : (hd.1 == k') = true
      · rw [List.find?_cons_of_pos, List.find?_cons_of_pos]
        · exact hf
        · exact hf
      · rw [List.find?_cons_of_neg, List.find?_cons_of_neg]
        · exact ih
        · exact hf
        · exact hf

theorem dictGet_dictInsert_ne {α : Type} (d : List (String × α)) (k k' : String)
    (v : α) (h : k' ≠ k) : dictGet (dictInsert d k v) k' = dictGet d k' := by
  have hk : ¬(((k, v).1 == k') = true) := by
    simp only [beq_iff_eq]
    exact fun he => h he.symm
  unfold dictInsert dictGet
  by_cases ha : d.any (fun p => p.1 == k)
  · rw [if_pos ha, find?_map_replace d k k' v h]
  · rw [if_neg ha, List.find?_append]
    have h2 : List.find? (fun p => p.1 == k') [(k, v)] = none := by
      rw [List.find?_cons_of_neg]
      · rfl
      · exact hk
    rw [h2, Option.or_none]

theorem dictGet_buildStep_isSome (d : List (String × App)) (info : AppInfo)
    (i : String) :
    (dictGet (buildStep d info) i).isSome =
      ((info.appId == i) && !isNoiseName info.name || (dictGet d i).isSome) := by
  unfold buildStep
  by_cases hn : isNoiseName info.name
  · simp [hn]
  · by_cases hi : info.appId = i
    · subst hi
      simp [hn, dictGet_dictInsert_self]
    · rw [if_neg hn, dictGet_dictInsert_ne _ _ _ _ (fun he => hi he.symm)]
      simp [hn, hi]

theorem dictGet_buildFold_isSome (l : List AppInfo) (d : List (String × App))
    (i : String) :
    (dictGet (l.foldl buildStep d) i).isSome =
      (l.any (fun info => info.appId == i && !isNoiseName info.name) ||
        (dictGet d i).isSome) := by
  induction l generalizing d with
  | nil => simp
  | cons info l ih =>
    rw [List.foldl_cons, ih, dictGet_buildStep_isSome]
    simp [Bool.or_comm, Bool.or_left_comm, Bool.or_assoc]

/-- C7: processing an installed-apps response replaces the registry
wholesale: an app id is present in the new registry exactly when the
response lists it with a name not matching the noise filter, and the result
does not depend on the previous registry (no old entry survives unless
re-listed). -/
theorem c7_registry_wholesale (st1 st2 : ClientState) (apps : List AppInfo) :
    (∀ i, (dictGet (_build_app_list st1 apps).installed_apps i).isSome = true ↔
      ∃ info ∈ apps, info.appId = i ∧ isNoiseName info.name = false) ∧
    (_build_app_list st1 apps).installed_apps =
      (_build_app_list st2 apps).installed_apps := by
  constructor
  · intro i
    show (dictGet (apps.foldl buildStep []) i).isSome = true ↔ _
    rw [dictGet_buildFold_isSome]
    simp [List.any_eq_true, dictGet]
  · rfl

/-- Witness for C7: a concrete response listing apps A and B, rebuilt over
two different previous registries. -/
theorem c7_registry_wholesale_witness :
    (dictGet (_build_app_list initialState [infoA, infoB]).installed_apps "A").isSome
      = true ∧
    (_build_app_list initialState [infoA, infoB]).installed_apps =
      (_build_app_list stWithApp [infoA, infoB]).installed_apps := by
  have h := c7_registry_wholesale initialState stWithApp [infoA, infoB]
  exact ⟨(h.1 "A").mpr ⟨infoA, by simp, rfl, by decide⟩, h.2⟩

/-- Counterexample to C8 as stated: processing an installed-apps response
invokes the notification callback even though the Current App value is
unchanged. -/
theorem c8_counterexample :
    (_build_app_list stWithApp [infoA, infoB]).current_app =
      stWithApp.current_app ∧
    (_build_app_list stWithApp [infoA, infoB]).callbackCount =
      stWithApp.callbackCount + 1 := by
  decide

/-- C8 (amended): `_update_current_app` invokes the callback exactly when
the Current App value changes and at most once per call; `_build_app_list`
however invokes the callback unconditionally on every installed-apps
response, whether or not Current App changed. -/
theorem c8_callback_discipline (st : ClientState) (app_id : Option String)
    (apps : List AppInfo) :
    ((_update_current_app st app_id).callbackCount ≠ st.callbackCount ↔
      (_update_current_app st app_id).current_app ≠ st.current_app) ∧
    (_update_current_app st app_id).callbackCount ≤ st.callbackCount + 1 ∧
    (_build_app_list st apps).callbackCount = st.callbackCount + 1 := by
  unfold _update_current_app _build_app_list
  by_cases h : (if strTruthy app_id then
      dictGet st.installed_apps (app_id.getD "") else none) ≠ st.current_app
  · rw [if_pos h]
    refine ⟨?_, by simp, rfl⟩
    simp only [ne_eq]
    constructor
    · intro _
      exact fun he => h he
    · intro _
      omega
  · rw [if_neg h]
    push_neg at h
    exact ⟨by simp, by simp, rfl⟩

/-- Witness for C8 (amended) at concrete inputs. -/
theorem c8_callback_discipline_witness :
    (_update_current_app stWithApp (some "ghost")).callbackCount ≤
      stWithApp.callbackCount + 1 ∧
    (_build_app_list stWithApp []).callbackCount = stWithApp.callbackCount + 1 :=
  ⟨(c8_callback_discipline stWithApp (some "ghost") []).2.1,
   (c8_callback_discipline stWithApp (some "ghost") []).2.2⟩

theorem update_current_app_spec (st : ClientState) (i : String) (h2 : i ≠ "") :
    (_update_current_app st (some i)).current_app = dictGet st.installed_apps i ∧
    (dictGet st.installed_apps i = none → st.current_app ≠ none →
      (_update_current_app st (some i)).callbackCount = st.callbackCount + 1) := by
  unfold _update_current_app
  have hts : strTruthy (some i) = true := by simp [strTruthy, h2]
  simp only [hts, if_true, Option.getD_some]
  by_cases h : dictGet st.installed_apps i ≠ st.current_app
  · rw [if_pos h]
    exact ⟨rfl, fun _ _ => rfl⟩
  · rw [if_neg h]
    push_neg at h
    exact ⟨h.symm, fun hn hc => absurd (h.symm.trans hn) hc⟩

/-- C10: whenever an app-status response reports a (truthy) app id as
running, the updated Current App is exactly the registry entry stored under
that id; in particular an id absent from the registry drives Current App to
none, with the callback firing when it was previously non-none. -/
theorem c10_current_app_from_registry (st : ClientState) (p : Payload)
    (i : String) (h1 : reportedId p = some i) (h2 : i ≠ "")
    (h3 : reportsRunning p = true) :
    (_on_message_control st p).current_app = dictGet st.installed_apps i ∧
    (dictGet st.installed_apps i = none → st.current_app ≠ none →
      (_on_message_control st p).current_app = none ∧
      (_on_message_control st p).callbackCount = st.callbackCount + 1) := by
  unfold _on_message_control
  have hts : strTruthy (some i) = true := by simp [strTruthy, h2]
  match hp : p.result with
  | none => exact absurd h3 (by simp [reportsRunning, hp])
  | some (.boolV b) =>
      have hb : b = true := by simpa [reportsRunning, hp] using h3
      subst hb
      have hid : p.id = some i := by simpa [reportedId, hp] using h1
      simp only [hp, resultTruthy, hid, hts, if_true]
      have hspec := update_current_app_spec { st with found_running_app := true } i h2
      exact ⟨hspec.1, fun hn hc =>
        ⟨hspec.1.trans hn, hspec.2 hn hc⟩⟩
  | some (.dictV r v j) =>
      have hrv : (r && v) = true := by simpa [reportsRunning, hp] using h3
      have hid : j = some i := by simpa [reportedId, hp] using h1
      subst hid
      simp only [hp, resultTruthy, hrv, hts, if_true]
      have hspec := update_current_app_spec { st with found_running_app := true } i h2
      exact ⟨hspec.1, fun hn hc =>
        ⟨hspec.1.trans hn, hspec.2 hn hc⟩⟩

/-- Witness for C10: the registry-absent app id "ghost" reports running
while A is current. -/
theorem c10_current_app_from_registry_witness :
    (_on_message_control stWithApp ghostPayload).current_app = none ∧
    (_on_message_control stWithApp ghostPayload).callbackCount =
      stWithApp.callbackCount + 1 := by
  have h := c10_current_app_from_registry stWithApp ghostPayload "ghost"
    (by decide) (by decide) (by decide)
  exact h.2 (by decide) (by decide)

end TizenWS
